import Mathlib

/-!
Verification of the saved-tensor default-hook mechanism described in the
repository's specification.  The Python file
`src/torch/autograd/saved_variable_default_hooks.py` is a thin wrapper that
forwards `set_saved_tensors_default_hooks` / `reset_saved_tensors_default_hooks`
to an opaque native registration API (`torch._C._autograd`); the registry,
SavedTensor, SaveSite and RestoreSite themselves live in the native engine and
are not part of `src/`.  Following the spec (§1–§4), those components are
modelled here from the spec's words.  Tensors `T`, packed opaque values `P`
and shape/dtype metadata `M` are abstract type parameters; hooks are fallible
functions returning `Except HookError _`.
-/

/-- Modelled from the spec (§7): errors a user hook can surface.  A pack/unpack
type mismatch is reported as `HookContractViolationError` at unpack time; any
other failure raised inside a hook is a `userError`. -/
inductive HookError where
  | HookContractViolationError
  | userError (msg : String)
deriving DecidableEq, Repr

/-- Modelled from the spec (§4.1): the error `set()` raises when a hook pair is
already active. -/
inductive RegError where
  | AlreadyRegisteredError
deriving DecidableEq, Repr

/-- Modelled from the spec (§6): a user-supplied hook pair.
`pack tensor -> opaque_value`, `unpack opaque_value -> tensor`; both may fail. -/
structure HookPair (T P : Type) where
  pack : T → Except HookError P
  unpack : P → Except HookError T

/-- Modelled from the spec (§3): process-wide state holding at most one active
(pack, unpack) hook pair; both present or both absent together. -/
structure HookRegistry (T P : Type) where
  active : Option (HookPair T P)

/-- Modelled from the spec (§4.1): `set(pack_hook, unpack_hook)` fails with
`AlreadyRegisteredError` if a pair is already active, leaving the registry
unchanged; otherwise installs the pair.  No validation of the hooks is
performed. -/
def HookRegistry.set (r : HookRegistry T P) (p : T → Except HookError P)
    (u : P → Except HookError T) : HookRegistry T P × Except RegError Unit :=
  match r.active with
  | some _ => (r, Except.error RegError.AlreadyRegisteredError)
  | none => ({ active := some ⟨p, u⟩ }, Except.ok ())

/-- Modelled from the spec (§4.1): `reset()` clears the active pair
unconditionally; it is total (idempotent, never an error). -/
def HookRegistry.reset (_r : HookRegistry T P) : HookRegistry T P :=
  { active := none }

/-- Modelled from the spec (§4.1): `snapshot()` returns the currently active
pair (or none) for binding into a new SavedTensor. -/
def HookRegistry.snapshot (r : HookRegistry T P) : Option (HookPair T P) :=
  r.active

/-- Embedding of `set_saved_tensors_default_hooks` from
`src/torch/autograd/saved_variable_default_hooks.py`: it forwards the pair to
the native registration API, modelled by `HookRegistry.set`. -/
def set_saved_tensors_default_hooks (r : HookRegistry T P)
    (pack_hook : T → Except HookError P) (unpack_hook : P → Except HookError T) :
    HookRegistry T P × Except RegError Unit :=
  r.set pack_hook unpack_hook

/-- Embedding of `reset_saved_tensors_default_hooks` from
`src/torch/autograd/saved_variable_default_hooks.py`: it forwards to the native
deregistration API, modelled by `HookRegistry.reset`. -/
def reset_saved_tensors_default_hooks (r : HookRegistry T P) : HookRegistry T P :=
  r.reset

/-- Modelled from the spec (§3): a SavedTensor holds metadata
(`original_shape_and_dtype`), a payload that is either a raw tensor reference
or an opaque packed value, and — in the packed case — the specific
pack/unpack hook references bound at save time, immutable afterward. -/
inductive SavedTensor (T P M : Type) where
  | raw (original_shape_and_dtype : M) (t : T)
  | packedWith (original_shape_and_dtype : M) (v : P)
      (pack_hook_ref : T → Except HookError P)
      (unpack_hook_ref : P → Except HookError T)

/-- The `is_packed` attribute of a SavedTensor (spec §3). -/
def SavedTensor.is_packed : SavedTensor T P M → Bool
  | .raw _ _ => false
  | .packedWith _ _ _ _ => true

/-- The `unpack_hook_ref` attribute of a SavedTensor: the unpack hook bound at
save time, absent when the payload is a raw tensor (spec §3). -/
def SavedTensor.unpack_hook_ref :
    SavedTensor T P M → Option (P → Except HookError T)
  | .raw _ _ => none
  | .packedWith _ _ _ u => some u

/-- Modelled from the spec (§4.2): SaveSite takes `HookRegistry.snapshot()` at
the moment of saving.  If no hooks are active the payload is the raw tensor
with `is_packed = false`; otherwise the payload is `pack_hook(t)` with
`is_packed = true` and the hook pair stored on the SavedTensor.  A failure
inside `pack_hook` propagates immediately (no retry). -/
def SaveSite (metaOf : T → M) (reg : HookRegistry T P) (t : T) :
    Except HookError (SavedTensor T P M) :=
  match reg.snapshot with
  | none => Except.ok (SavedTensor.raw (metaOf t) t)
  | some hp =>
      (hp.pack t).map fun v =>
        SavedTensor.packedWith (metaOf t) v hp.pack hp.unpack

/-- Modelled from the spec (§4.3): RestoreSite returns the payload directly
when `is_packed` is false, and `unpack_hook(payload)` using the hook captured
at save time otherwise; it never consults the registry. -/
def RestoreSite : SavedTensor T P M → Except HookError T
  | .raw _ t => Except.ok t
  | .packedWith _ v _ u => u v

/-- Modelled from the spec (§2, §5): the engine-visible state surrounding the
mechanism — the registry, the list of SavedTensors produced so far, and
counters of how many times a pack and an unpack hook have been invoked. -/
structure EngineState (T P M : Type) where
  registry : HookRegistry T P
  saved : List (SavedTensor T P M)
  packCalls : Nat
  unpackCalls : Nat

/-- Modelled from the spec (§4.2): one SaveSite trigger as an engine step.
With hooks active the pack hook is invoked exactly once (counted); on success
the SavedTensor is appended to the saved list, on failure the error propagates
and the state (registry included) is otherwise unchanged. -/
def saveStep (metaOf : T → M) (s : EngineState T P M) (t : T) :
    EngineState T P M × Except HookError (SavedTensor T P M) :=
  match s.registry.snapshot with
  | none =>
      let st := SavedTensor.raw (metaOf t) t
      ({ s with saved := s.saved ++ [st] }, Except.ok st)
  | some hp =>
      let s' := { s with packCalls := s.packCalls + 1 }
      match hp.pack t with
      | Except.error e => (s', Except.error e)
      | Except.ok v =>
          let st := SavedTensor.packedWith (metaOf t) v hp.pack hp.unpack
          ({ s' with saved := s'.saved ++ [st] }, Except.ok st)

/-- Modelled from the spec (§4.3): one RestoreSite trigger as an engine step.
A packed SavedTensor re-invokes its bound unpack hook (counted) on every call;
a raw one returns its payload without invoking any hook. -/
def restoreStep (s : EngineState T P M) (st : SavedTensor T P M) :
    EngineState T P M × Except HookError T :=
  match st with
  | .raw _ t => (s, Except.ok t)
  | .packedWith _ v _ u =>
      ({ s with unpackCalls := s.unpackCalls + 1 }, u v)

/-- Iterating `restoreStep` n times on the same SavedTensor (spec §4.3:
RestoreSite may be called more than once when the graph is retained). -/
def restoreIter (s : EngineState T P M) (st : SavedTensor T P M) :
    Nat → EngineState T P M
  | 0 => s
  | n + 1 => (restoreStep (restoreIter s st n) st).1

/-- Modelled from the spec (§6): `set_saved_tensors_default_hooks` /
`enable_saved_tensor_hooks` as an engine step; it only forwards the pair to
the registry. -/
def setStep (s : EngineState T P M) (p : T → Except HookError P)
    (u : P → Except HookError T) : EngineState T P M × Except RegError Unit :=
  ({ s with registry := (set_saved_tensors_default_hooks s.registry p u).1 },
   (set_saved_tensors_default_hooks s.registry p u).2)

/-- Modelled from the spec (§6): `reset_saved_tensors_default_hooks` /
`disable_saved_tensor_hooks` as an engine step; it only forwards to the
registry. -/
def resetStep (s : EngineState T P M) : EngineState T P M :=
  { s with registry := reset_saved_tensors_default_hooks s.registry }

/-- Modelled from the spec (§5): the operations that mutate the registry,
for reasoning about interleavings of concurrent calls; `set`/`reset`/
`snapshot` are mutually exclusive, so each executes as one atomic step. -/
inductive RegOp (T P : Type) where
  | set (p : T → Except HookError P) (u : P → Except HookError T)
  | reset

/-- Apply one atomic registry operation. -/
def applyOp (r : HookRegistry T P) : RegOp T P → HookRegistry T P
  | .set p u => (r.set p u).1
  | .reset => r.reset

/-- Run an interleaved sequence of atomic registry operations. -/
def runOps (r : HookRegistry T P) : List (RegOp T P) → HookRegistry T P
  | [] => r
  | op :: ops => runOps (applyOp r op) ops

/-! Concrete fixtures used by the witness theorems: tensors and packed values
are integers, metadata is trivial. -/

/-- Trivial metadata extractor for the integer instantiation. -/
def metaU : Int → Unit := fun _ => ()

/-- A pack hook that shifts the tensor up by one. -/
def packIncr : Int → Except HookError Int := fun x => Except.ok (x + 1)

/-- The unpack hook inverting `packIncr`. -/
def unpackDecr : Int → Except HookError Int := fun v => Except.ok (v - 1)

/-- A second, different pack hook. -/
def packDouble : Int → Except HookError Int := fun x => Except.ok (x * 2)

/-- A second, different unpack hook, distinguishable from `unpackDecr`. -/
def unpackShift : Int → Except HookError Int := fun v => Except.ok (v + 100)

/-- An unpack hook mismatched with its pack partner: it rejects every packed
value with `HookContractViolationError`. -/
def unpackBad : Int → Except HookError Int :=
  fun _ => Except.error HookError.HookContractViolationError

/-- A pack hook that always raises. -/
def packFail : Int → Except HookError Int :=
  fun _ => Except.error (HookError.userError "disk full")

/-- The empty registry over integers. -/
def emptyReg : HookRegistry Int Int := { active := none }

/-- A registry whose active pair round-trips. -/
def regRT : HookRegistry Int Int := { active := some ⟨packIncr, unpackDecr⟩ }

/-- An engine state whose active pack hook always raises. -/
def failState : EngineState Int Int Unit :=
  { registry := { active := some ⟨packFail, unpackDecr⟩ }
    saved := []
    packCalls := 0
    unpackCalls := 0 }

/-- C3: for every tensor `t` saved while no hook pair is active, SaveSite
stores `t` itself as the payload with `is_packed = false`, and RestoreSite
returns that payload directly, so restoring the saved tensor yields `t`. -/
theorem no_hooks_round_trip (metaOf : T → M) (reg : HookRegistry T P) (t : T)
    (hnone : reg.active = none) :
    SaveSite metaOf reg t = Except.ok (SavedTensor.raw (metaOf t) t)
    ∧ (SavedTensor.raw (P := P) (metaOf t) t).is_packed = false
    ∧ (SaveSite metaOf reg t).bind RestoreSite = Except.ok t := by
  refine ⟨?_, rfl, ?_⟩ <;>
    simp [SaveSite, HookRegistry.snapshot, hnone, RestoreSite, Except.bind]

/-- C3 witness: the identity round-trip at tensor 7 under the empty registry. -/
theorem no_hooks_round_trip_witness :
    SaveSite metaU emptyReg 7 = Except.ok (SavedTensor.raw () 7)
    ∧ (SavedTensor.raw (P := Int) () (7 : Int)).is_packed = false
    ∧ (SaveSite metaU emptyReg 7).bind RestoreSite = Except.ok (7 : Int) :=
  no_hooks_round_trip metaU emptyReg 7 rfl

/-- C1: for every tensor `t` and hook pair `(p, u)` with `u (p x) = x` for
all `x`, if `(p, u)` is the active pair at save time then restoring the saved
tensor yields `t` back. -/
theorem hooked_round_trip (metaOf : T → M) (reg : HookRegistry T P)
    (p : T → Except HookError P) (u : P → Except HookError T) (t : T)
    (hactive : reg.active = some ⟨p, u⟩)
    (hround : ∀ x, (p x).bind u = Except.ok x) :
    (SaveSite metaOf reg t).bind RestoreSite = Except.ok t := by
  have h := hround t
  cases hp : p t with
  | error e => rw [hp] at h; exact absurd h (by simp [Except.bind])
  | ok v =>
      rw [hp] at h
      simp only [SaveSite, HookRegistry.snapshot, hactive, hp, Except.map]
      simpa [RestoreSite, Except.bind] using h

/-- C1 witness: the round-tripping pair `(packIncr, unpackDecr)` restores
tensor 5 exactly. -/
theorem hooked_round_trip_witness :
    (SaveSite metaU regRT 5).bind RestoreSite = Except.ok (5 : Int) :=
  hooked_round_trip metaU regRT packIncr unpackDecr 5 rfl
    (fun x => by simp [packIncr, unpackDecr, Except.bind])

/-- C4: calling `set` while a pair is active fails with
`AlreadyRegisteredError` and leaves the registry (hence the originally
registered active pair) unchanged. -/
theorem set_twice_fails (r : HookRegistry T P) (q : HookPair T P)
    (p : T → Except HookError P) (u : P → Except HookError T)
    (hactive : r.active = some q) :
    set_saved_tensors_default_hooks r p u
      = (r, Except.error RegError.AlreadyRegisteredError) := by
  simp [set_saved_tensors_default_hooks, HookRegistry.set, hactive]

/-- C4 witness: a second registration on `regRT` fails and `regRT` keeps its
pair. -/
theorem set_twice_fails_witness :
    set_saved_tensors_default_hooks regRT packDouble unpackShift
      = (regRT, Except.error RegError.AlreadyRegisteredError) :=
  set_twice_fails regRT ⟨packIncr, unpackDecr⟩ packDouble unpackShift rfl

/-- C6: `reset_saved_tensors_default_hooks` is idempotent: it always leaves
the registry empty, is the identity on an already-empty registry (no error —
it is a total function), and resetting twice equals resetting once. -/
theorem reset_idempotent (r : HookRegistry T P) :
    (reset_saved_tensors_default_hooks r).active = none
    ∧ (r.active = none → reset_saved_tensors_default_hooks r = r)
    ∧ reset_saved_tensors_default_hooks (reset_saved_tensors_default_hooks r)
        = reset_saved_tensors_default_hooks r := by
  refine ⟨rfl, ?_, rfl⟩
  intro h
  cases r with
  | mk a => cases h; rfl

/-- C6 witness: resetting the empty registry succeeds and returns it
unchanged. -/
theorem reset_idempotent_witness :
    reset_saved_tensors_default_hooks emptyReg = emptyReg :=
  (reset_idempotent emptyReg).2.1 rfl

/-- C2: a tensor saved while `(p1, u1)` is active binds that pair into the
SavedTensor; after `reset()` and `set(p2, u2)` install a different pair,
RestoreSite on that SavedTensor still invokes `u1` on the stored payload —
the registry change is invisible to it. -/
theorem bound_pair_immutable (metaOf : T → M) (reg1 : HookRegistry T P)
    (p1 : T → Except HookError P) (u1 : P → Except HookError T)
    (p2 : T → Except HookError P) (u2 : P → Except HookError T)
    (t : T) (v : P)
    (hactive : reg1.active = some ⟨p1, u1⟩) (hpack : p1 t = Except.ok v) :
    SaveSite metaOf reg1 t
        = Except.ok (SavedTensor.packedWith (metaOf t) v p1 u1)
    ∧ ((reset_saved_tensors_default_hooks reg1).set p2 u2).1.active
        = some ⟨p2, u2⟩
    ∧ (SavedTensor.packedWith (M := M) (metaOf t) v p1 u1).unpack_hook_ref
        = some u1
    ∧ RestoreSite (SavedTensor.packedWith (metaOf t) v p1 u1) = u1 v := by
  refine ⟨?_, ?_, rfl, rfl⟩
  · simp [SaveSite, HookRegistry.snapshot, hactive, hpack, Except.map]
  · simp [reset_saved_tensors_default_hooks, HookRegistry.reset,
      HookRegistry.set]

/-- C2 witness: save 5 under `(packIncr, unpackDecr)`, reset, install
`(packDouble, unpackShift)`; the restore still runs `unpackDecr` on the
stored payload 6. -/
theorem bound_pair_immutable_witness :
    SaveSite metaU regRT 5
        = Except.ok (SavedTensor.packedWith () 6 packIncr unpackDecr)
    ∧ ((reset_saved_tensors_default_hooks regRT).set packDouble unpackShift).1.active
        = some ⟨packDouble, unpackShift⟩
    ∧ (SavedTensor.packedWith (M := Unit) () 6 packIncr unpackDecr).unpack_hook_ref
        = some unpackDecr
    ∧ RestoreSite (SavedTensor.packedWith () 6 packIncr unpackDecr)
        = unpackDecr 6 :=
  bound_pair_immutable metaU regRT packIncr unpackDecr packDouble unpackShift
    5 6 rfl rfl

/-- C5: if the active pack hook raises during a save, the error propagates
immediately, no SavedTensor is recorded, the pack hook was invoked exactly
once (no retry), and the registry is exactly as before the failing save. -/
theorem pack_failure_aborts_save (metaOf : T → M) (s : EngineState T P M)
    (hp : HookPair T P) (t : T) (e : HookError)
    (hactive : s.registry.active = some hp)
    (hfail : hp.pack t = Except.error e) :
    saveStep metaOf s t
        = ({ s with packCalls := s.packCalls + 1 }, Except.error e)
    ∧ (saveStep metaOf s t).1.registry = s.registry
    ∧ (saveStep metaOf s t).1.saved = s.saved
    ∧ (saveStep metaOf s t).1.packCalls = s.packCalls + 1 := by
  have h1 : saveStep metaOf s t
      = ({ s with packCalls := s.packCalls + 1 }, Except.error e) := by
    simp [saveStep, HookRegistry.snapshot, hactive, hfail]
  exact ⟨h1, by rw [h1], by rw [h1], by rw [h1]⟩

/-- C5 witness: saving 3 in `failState` (whose pack hook always raises)
propagates the error, records nothing and leaves the registry untouched. -/
theorem pack_failure_aborts_save_witness :
    saveStep metaU failState 3
        = ({ failState with packCalls := failState.packCalls + 1 },
           Except.error (HookError.userError "disk full"))
    ∧ (saveStep metaU failState 3).1.registry = failState.registry
    ∧ (saveStep metaU failState 3).1.saved = failState.saved
    ∧ (saveStep metaU failState 3).1.packCalls = failState.packCalls + 1 :=
  pack_failure_aborts_save metaU failState ⟨packFail, unpackDecr⟩ 3
    (HookError.userError "disk full") rfl rfl

/-- C7: unpack hooks are not memoized: iterating RestoreSite n times on the
same packed SavedTensor invokes the bound unpack hook exactly n times, and
every call recomputes `u v` afresh. -/
theorem unpack_not_memoized (s : EngineState T P M) (m : M) (v : P)
    (p : T → Except HookError P) (u : P → Except HookError T) (n : Nat) :
    (restoreIter s (SavedTensor.packedWith m v p u) n).unpackCalls
        = s.unpackCalls + n
    ∧ (restoreStep (restoreIter s (SavedTensor.packedWith m v p u) n)
        (SavedTensor.packedWith m v p u)).2 = u v := by
  refine ⟨?_, rfl⟩
  induction n with
  | zero => rfl
  | succ k ih =>
      show (restoreIter s (SavedTensor.packedWith m v p u) k).unpackCalls + 1
          = s.unpackCalls + (k + 1)
      rw [ih]
      omega

/-- C8: `set` performs no validation of the hooks: registration of a
mismatched pair succeeds, packing succeeds at save time, and the mismatch
surfaces as `HookContractViolationError` only at restore time. -/
theorem lazy_hook_validation (metaOf : T → M) (r : HookRegistry T P)
    (p : T → Except HookError P) (u : P → Except HookError T) (t : T) (v : P)
    (hempty : r.active = none) (hpack : p t = Except.ok v)
    (hmis : u v = Except.error HookError.HookContractViolationError) :
    (set_saved_tensors_default_hooks r p u).2 = Except.ok ()
    ∧ (set_saved_tensors_default_hooks r p u).1.active = some ⟨p, u⟩
    ∧ SaveSite metaOf (set_saved_tensors_default_hooks r p u).1 t
        = Except.ok (SavedTensor.packedWith (metaOf t) v p u)
    ∧ (SaveSite metaOf (set_saved_tensors_default_hooks r p u).1 t).bind
          RestoreSite
        = Except.error HookError.HookContractViolationError := by
  have hset : set_saved_tensors_default_hooks r p u
      = ({ active := some ⟨p, u⟩ }, Except.ok ()) := by
    simp [set_saved_tensors_default_hooks, HookRegistry.set, hempty]
  have hsave : SaveSite metaOf (set_saved_tensors_default_hooks r p u).1 t
      = Except.ok (SavedTensor.packedWith (metaOf t) v p u) := by
    rw [hset]
    simp [SaveSite, HookRegistry.snapshot, hpack, Except.map]
  refine ⟨by rw [hset], by rw [hset], hsave, ?_⟩
  rw [hsave]
  simpa [RestoreSite, Except.bind] using hmis

/-- C8 witness: registering `(packIncr, unpackBad)` on the empty registry
succeeds, saving 5 succeeds, and the mismatch errors only at restore. -/
theorem lazy_hook_validation_witness :
    (set_saved_tensors_default_hooks emptyReg packIncr unpackBad).2
        = Except.ok ()
    ∧ (set_saved_tensors_default_hooks emptyReg packIncr unpackBad).1.active
        = some ⟨packIncr, unpackBad⟩
    ∧ SaveSite metaU
          (set_saved_tensors_default_hooks emptyReg packIncr unpackBad).1 5
        = Except.ok (SavedTensor.packedWith () 6 packIncr unpackBad)
    ∧ (SaveSite metaU
          (set_saved_tensors_default_hooks emptyReg packIncr unpackBad).1 5).bind
          RestoreSite
        = Except.error HookError.HookContractViolationError :=
  lazy_hook_validation metaU emptyReg packIncr unpackBad 5 6 rfl rfl rfl

/-- C9: with `set`/`reset`/`snapshot` mutually exclusive (each an atomic step),
no interleaving of registry operations yields a torn read: whenever a snapshot
observes an active pair, that exact (pack, unpack) pair was installed whole by
a single `set` in the interleaving (or was active initially). -/
theorem snapshot_never_torn (r : HookRegistry T P) (ops : List (RegOp T P))
    (pr : HookPair T P)
    (h : (runOps r ops).snapshot = some pr) :
    r.active = some pr ∨ RegOp.set pr.pack pr.unpack ∈ ops := by
  induction ops generalizing r with
  | nil => exact Or.inl h
  | cons op ops ih =>
      rcases ih (applyOp r op) h with h' | h'
      · cases op with
        | set p u =>
            cases hr : r.active with
            | none =>
                simp [applyOp, HookRegistry.set, hr] at h'
                subst h'
                exact Or.inr (List.mem_cons_self _ _)
            | some q =>
                simp [applyOp, HookRegistry.set, hr] at h'
                subst h'
                exact Or.inl rfl
        | reset =>
            simp [applyOp, HookRegistry.reset] at h'
      · exact Or.inr (List.mem_cons_of_mem _ h')

/-- C9 witness: after the single atomic operation installing
`(packIncr, unpackDecr)` on the empty registry, the observed pair is exactly
the one installed by that `set`. -/
theorem snapshot_never_torn_witness :
    emptyReg.active = some ⟨packIncr, unpackDecr⟩
    ∨ RegOp.set packIncr unpackDecr ∈ [RegOp.set packIncr unpackDecr] :=
  snapshot_never_torn emptyReg [RegOp.set packIncr unpackDecr]
    ⟨packIncr, unpackDecr⟩ rfl

/-- C10: registration and deregistration never invoke the hooks (the pack and
unpack invocation counters are unchanged) and affect no engine state other
than the registry's active pair (the saved list is unchanged). -/
theorem registration_frame_effect (s : EngineState T P M)
    (p : T → Except HookError P) (u : P → Except HookError T) :
    (setStep s p u).1.packCalls = s.packCalls
    ∧ (setStep s p u).1.unpackCalls = s.unpackCalls
    ∧ (setStep s p u).1.saved = s.saved
    ∧ (resetStep s).packCalls = s.packCalls
    ∧ (resetStep s).unpackCalls = s.unpackCalls
    ∧ (resetStep s).saved = s.saved
    ∧ (resetStep s).registry.active = none :=
  ⟨rfl, rfl, rfl, rfl, rfl, rfl, rfl⟩
